import Mathlib

/-
Verification development for the zksync-era node-framework core.

The development shallowly embeds the Rust sources:
  * core/lib/types/src/log_query.rs                 (versioned LogQuery conversions)
  * core/lib/zksync_core/src/state_keeper/io/common.rs  (poll_iters)
  * core/lib/node/src/node/mod.rs                   (ZkSyncNode: new / run, aggregated design)
  * core/lib/node/src/lib.rs                        (ZkSyncNode::get_resource, the resource registry)

Machine integers are modelled as Nat; wherever the Rust code can overflow or
truncate (the u64 casts in poll_iters) the reduction modulo 2^64 is explicit.
Type-erased values (Box of dyn Any) are modelled as a payload tagged with a
runtime type tag; a downcast succeeds exactly when the tags agree.
-/

set_option autoImplicit false

namespace ZkSyncEra

/-! ## Versioned LogQuery conversions (core/lib/types/src/log_query.rs) -/

/-- Timestamp of zk_evm 1.3.x (aux_structures::Timestamp, a u32 newtype). -/
structure Timestamp_1_4_0 where
  val : Nat
deriving DecidableEq, Repr

/-- Timestamp of zk_evm_1_4_1 (aux_structures::Timestamp, a u32 newtype). -/
structure Timestamp_1_4_1 where
  val : Nat
deriving DecidableEq, Repr

/-- Timestamp newtype of the unified LogQuery (a u32 newtype). -/
structure Timestamp where
  val : Nat
deriving DecidableEq, Repr

/-- LogQuery of zk_evm (version 1.4.0 ABI). Address is H160 and key fields are
U256; the conversions copy them verbatim, so they are modelled as Nat. -/
structure LogQuery_1_4_0 where
  timestamp : Timestamp_1_4_0
  tx_number_in_block : Nat
  aux_byte : Nat
  shard_id : Nat
  address : Nat
  key : Nat
  read_value : Nat
  written_value : Nat
  rw_flag : Bool
  rollback : Bool
  is_service : Bool
deriving DecidableEq, Repr

/-- LogQuery of zk_evm_1_4_1. -/
structure LogQuery_1_4_1 where
  timestamp : Timestamp_1_4_1
  tx_number_in_block : Nat
  aux_byte : Nat
  shard_id : Nat
  address : Nat
  key : Nat
  read_value : Nat
  written_value : Nat
  rw_flag : Bool
  rollback : Bool
  is_service : Bool
deriving DecidableEq, Repr

/-- The unified LogQuery of zksync_types. -/
structure LogQuery where
  timestamp : Timestamp
  tx_number_in_block : Nat
  aux_byte : Nat
  shard_id : Nat
  address : Nat
  key : Nat
  read_value : Nat
  written_value : Nat
  rw_flag : Bool
  rollback : Bool
  is_service : Bool
deriving DecidableEq, Repr

/-- impl From LogQuery_1_4_0 for LogQuery (log_query.rs lines 30-46). -/
def logQuery_of_1_4_0 (value : LogQuery_1_4_0) : LogQuery :=
  { timestamp := ⟨value.timestamp.val⟩
    tx_number_in_block := value.tx_number_in_block
    aux_byte := value.aux_byte
    shard_id := value.shard_id
    address := value.address
    key := value.key
    read_value := value.read_value
    written_value := value.written_value
    rw_flag := value.rw_flag
    rollback := value.rollback
    is_service := value.is_service }

/-- impl From LogQuery_1_4_1 for LogQuery (log_query.rs lines 48-64). -/
def logQuery_of_1_4_1 (value : LogQuery_1_4_1) : LogQuery :=
  { timestamp := ⟨value.timestamp.val⟩
    tx_number_in_block := value.tx_number_in_block
    aux_byte := value.aux_byte
    shard_id := value.shard_id
    address := value.address
    key := value.key
    read_value := value.read_value
    written_value := value.written_value
    rw_flag := value.rw_flag
    rollback := value.rollback
    is_service := value.is_service }

/-- impl Into LogQuery_1_4_0 for LogQuery (log_query.rs lines 66-82). -/
def logQuery_to_1_4_0 (q : LogQuery) : LogQuery_1_4_0 :=
  { timestamp := ⟨q.timestamp.val⟩
    tx_number_in_block := q.tx_number_in_block
    aux_byte := q.aux_byte
    shard_id := q.shard_id
    address := q.address
    key := q.key
    read_value := q.read_value
    written_value := q.written_value
    rw_flag := q.rw_flag
    rollback := q.rollback
    is_service := q.is_service }

/-- impl Into LogQuery_1_4_1 for LogQuery (log_query.rs lines 84-100). -/
def logQuery_to_1_4_1 (q : LogQuery) : LogQuery_1_4_1 :=
  { timestamp := ⟨q.timestamp.val⟩
    tx_number_in_block := q.tx_number_in_block
    aux_byte := q.aux_byte
    shard_id := q.shard_id
    address := q.address
    key := q.key
    read_value := q.read_value
    written_value := q.written_value
    rw_flag := q.rw_flag
    rollback := q.rollback
    is_service := q.is_service }

/-! ## poll_iters (core/lib/zksync_core/src/state_keeper/io/common.rs) -/

/-- Rust std::time::Duration: a u64 second count plus a sub-second nanosecond
count below 10^9. Both components are Nat here; a valid duration satisfies
secs < 2^64 and nanos < 10^9, which concrete instances below respect. -/
structure Duration where
  secs : Nat
  nanos : Nat
deriving DecidableEq, Repr

/-- Duration::as_millis, a u128 result. For valid durations the exact value
fits in a u128, so no reduction is needed here. -/
def Duration.as_millis (d : Duration) : Nat :=
  d.secs * 1000 + d.nanos / 1000000

/-- Modulus of the u64 casts in poll_iters. -/
def U64MOD : Nat := 2 ^ 64

/-- Duration::from_millis. -/
def Duration.from_millis (ms : Nat) : Duration :=
  ⟨ms / 1000, (ms % 1000) * 1000000⟩

/-- poll_iters (common.rs lines 63-69). The two as_millis results are cast
with `as u64`, i.e. reduced modulo 2^64. A zero (truncated) delay interval
trips the positivity assertion, which aborts: modelled as none. The sum
max_wait_millis + delay_interval_millis - 1 is u64 arithmetic and therefore
wraps modulo 2^64 before the division. -/
def poll_iters (delay_interval max_wait : Duration) : Option Nat :=
  let max_wait_millis := max_wait.as_millis % U64MOD
  let delay_interval_millis := delay_interval.as_millis % U64MOD
  if delay_interval_millis = 0 then
    none
  else
    some (Nat.max ((max_wait_millis + delay_interval_millis - 1) % U64MOD
      / delay_interval_millis) 1)

/-! ## ZkSyncNode::new (core/lib/node/src/node/mod.rs lines 67-92) -/

/-- Construction-time state of a freshly built ZkSyncNode: the resource
caches are empty, no task constructors are registered, and both watch
channels (wired, stop) start at false. -/
structure FreshNode where
  resources : List (String × Nat)
  task_constructors : List String
  wired : Bool
  stopped : Bool
deriving DecidableEq, Repr

/-- Result of ZkSyncNode::new. -/
inductive NewResult
  | invalidEnvironment (msg : String)
  | created (node : FreshNode)
deriving DecidableEq, Repr

/-- ZkSyncNode::new. The only input it branches on is whether a tokio
runtime handle is already current (an ambient executor); the runtime build
itself is infallible in this model. -/
def ZkSyncNode.new (ambientRuntime : Bool) : NewResult :=
  if ambientRuntime then
    NewResult.invalidEnvironment
      "Detected a Tokio Runtime. ZkSyncNode manages its own runtime and does not support nested runtimes"
  else
    NewResult.created ⟨[], [], false, false⟩

/-! ## Resource registry (core/lib/node/src/lib.rs lines 136-177)

A Box of dyn Any is a payload carrying the runtime TypeId of the value it
erases. `ty` models the TypeId, `val` the payload; downcast_ref to T
succeeds exactly when the stored TypeId equals the TypeId of T. Cloning a
resource yields a value equal to the original, so the clone is modelled as
the value itself. -/

/-- Type-erased boxed value (Box of dyn Any). -/
structure DynAny where
  ty : String
  val : Nat
deriving DecidableEq, Repr

/-- State of the registry held by ZkSyncNode: the resources RefCell cache
plus, for the provider-call count of the claims, the list of names with
which ResourceProvider::get_resource has been invoked so far (most recent
first). -/
structure Registry where
  resources : List (String × DynAny)
  providerCalls : List String
deriving DecidableEq, Repr

/-- HashMap::get on the cache, keyed by name. -/
def lookupRes (rs : List (String × DynAny)) (name : String) : Option DynAny :=
  (rs.find? (fun p => p.1 == name)).map (fun p => p.2)

/-- Outcome of ZkSyncNode::get_resource as observed by the caller. -/
inductive GetOutcome
  /-- Some(clone): a T-typed clone of the stored value. -/
  | found (v : DynAny)
  /-- None: neither the cache nor the provider has the resource. -/
  | absent
  /-- The downcast_clone closure hit a value of the wrong type and executed
  `panic!("Resource {name} is not of type {T}")` (lib.rs lines 148-155).
  The panic unwinds out of get_resource and out of the requesting
  constructor; it is not a returned value. -/
  | typePanic (name expected : String)
deriving DecidableEq, Repr

/-- The downcast_clone closure of get_resource: downcast_ref::<T> followed
by clone, panicking when the stored TypeId differs from T. -/
def downcastClone (T name : String) (r : DynAny) : GetOutcome :=
  if r.ty = T then GetOutcome.found r else GetOutcome.typePanic name T

/-- ZkSyncNode::get_resource::<T>(name) (lib.rs lines 145-177), written as
explicit state passing over the RefCell contents.
1. If the name is cached, downcast_clone the cached value (state unchanged).
2. Otherwise invoke the provider (recording the call); if it yields a
   value, downcast_clone it first and only then insert it into the cache.
3. Otherwise return None. An absent answer is not cached. -/
def get_resource (provider : String → Option DynAny) (T name : String)
    (st : Registry) : GetOutcome × Registry :=
  match lookupRes st.resources name with
  | some r => (downcastClone T name r, st)
  | none =>
    match provider name with
    | some r =>
      (match downcastClone T name r with
       | GetOutcome.found v =>
         (GetOutcome.found v,
          ⟨(name, r) :: st.resources, name :: st.providerCalls⟩)
       | out => (out, ⟨st.resources, name :: st.providerCalls⟩))
    | none => (GetOutcome.absent, ⟨st.resources, name :: st.providerCalls⟩)

/-- A sequence of get_resource requests (expected type, name) issued by the
task constructors over the lifetime of the node, threaded through the
shared registry. A typePanic outcome aborts the process, so the fold stops
there. -/
def runRequests (provider : String → Option DynAny) :
    List (String × String) → Registry → List GetOutcome × Registry
  | [], st => ([], st)
  | (T, name) :: rest, st =>
    match get_resource provider T name st with
    | (GetOutcome.typePanic n e, st1) => ([GetOutcome.typePanic n e], st1)
    | (out, st1) =>
      let (outs, st2) := runRequests provider rest st1
      (out :: outs, st2)

/-! ## ZkSyncNode::run (core/lib/node/src/node/mod.rs lines 108-204)

The run method is a sequential orchestration: every suspension point it
owns is a block_on, so the phases execute strictly in program order. The
embedding replays that order as an event trace. A task constructor is an
opaque closure whose only interaction with the loop is its name and its
Result, so a registered constructor is modelled by its outcome; likewise a
spawned task future is modelled by the value it eventually resolves to. -/

/-- Modelled from the spec: the TaskInitError enum lives in the task module
of the node crate, which is not under src/; its kinds are the three
per-task error kinds of the spec error table. -/
inductive TaskInitError
  | resourceMissing (name : String)
  | resourceTypeMismatch (name expected : String)
  | custom (msg : String)
deriving DecidableEq, Repr

/-- Modelled from the spec: the Display rendering of TaskInitError, used
only inside the init-failure log line. -/
def TaskInitError.describe : TaskInitError → String
  | TaskInitError.resourceMissing name => "resource " ++ name ++ " is missing"
  | TaskInitError.resourceTypeMismatch name expected =>
      "resource " ++ name ++ " is not of type " ++ expected
  | TaskInitError.custom msg => msg

/-- Resolution of a spawned task future, as seen through its tokio
JoinHandle: Ok(Ok(())), Ok(Err(err)), or Err(join error) for a panic. -/
inductive TaskResult
  | ok
  | err (msg : String)
  | panicked
deriving DecidableEq, Repr

/-- One registered task constructor, modelled by what it does when run
invokes it: its registered name, the constructor outcome (none = Ok(task),
some e = Err(e)), whether the created task offers an after_node_shutdown
hook, and what the created task run future resolves to. -/
structure TaskSpec where
  name : String
  init : Option TaskInitError
  hasHook : Bool
  result : TaskResult
deriving DecidableEq, Repr

/-- Default TaskSpec used only to give List.getD a dummy; every theorem
that indexes supplies a bound keeping the dummy unread. -/
def dfltTask : TaskSpec := ⟨"", none, false, TaskResult.ok⟩

/-- Observable events of one execution of run, in program order. -/
inductive Event
  /-- The constructor of the named task was invoked (loop at lines 116-135). -/
  | ctorInvoked (name : String)
  /-- stop_receiver() handed a fresh StopReceiver to the named task
  (line 128: task.run(self.stop_receiver())). -/
  | subCreated (name : String)
  /-- A tracing log line. -/
  | logged (msg : String)
  /-- wired_sender.send(true) (line 150). -/
  | wiredFired
  /-- rt_handle.spawn for the named task (lines 154-162). -/
  | spawned (name : String)
  /-- select_all resolved with the named task first (lines 166-169). -/
  | firstResolved (name : String)
  /-- stop_sender.send(true) (line 187). -/
  | stopFired
  /-- join_all awaited the named remaining task to completion (line 188). -/
  | drained (name : String)
  /-- local_set.spawn_local of the named task after_node_shutdown hook
  (lines 191-196). -/
  | hookSpawned (name : String)
deriving DecidableEq, Repr

/-- Events of the constructor loop: every constructor is invoked in
registration order; a successful one immediately builds the task future,
handing it a fresh stop receiver. -/
def initLoop : List TaskSpec → List Event
  | [] => []
  | t :: ts =>
    (match t.init with
     | some _ => [Event.ctorInvoked t.name]
     | none => [Event.ctorInvoked t.name, Event.subCreated t.name])
      ++ initLoop ts

/-- The errors vector accumulated by the loop, in registration order. -/
def initErrors (ts : List TaskSpec) : List (String × TaskInitError) :=
  ts.filterMap (fun t => t.init.map (fun e => (t.name, e)))

/-- The tasks vector accumulated by the loop (successfully constructed
tasks), in registration order. -/
def okTasks (ts : List TaskSpec) : List TaskSpec :=
  ts.filter (fun t => t.init.isNone)

/-- Result of run. -/
inductive RunResult
  | ok
  | failed (msg : String)
deriving DecidableEq, Repr

/-- Full outcome of run: the event trace plus the returned value. -/
structure RunTrace where
  events : List Event
  result : RunResult
deriving DecidableEq, Repr

/-- The log line run emits for the first resolved task (lines 170-183). -/
def firstResolvedLog (t : TaskSpec) : Event :=
  match t.result with
  | TaskResult.ok => Event.logged ("Task " ++ t.name ++ " completed")
  | TaskResult.err m =>
      Event.logged ("Task " ++ t.name ++ " exited with an error: " ++ m)
  | TaskResult.panicked => Event.logged ("Task " ++ t.name ++ " panicked")

/-- ZkSyncNode::run (node/mod.rs lines 108-204). `firstIdx` is the index
(into the tasks vector) that select_all reports as first to resolve; any
execution of the Running phase corresponds to one such index below the
vector length. The drained remaining handles and the spawned hooks are
listed in registration order; run discards their values, and no theorem
below depends on the relative order inside those two groups. -/
def ZkSyncNode.run (ts : List TaskSpec) (firstIdx : Nat) : RunTrace :=
  let initEv := initLoop ts
  let errors := initErrors ts
  let tasks := okTasks ts
  if errors.isEmpty then
    if tasks.isEmpty then
      { events := initEv, result := RunResult.failed "No tasks to run" }
    else
      let first := tasks.getD firstIdx dfltTask
      let failure := first.result ≠ TaskResult.ok
      { events := initEv ++ [Event.wiredFired]
          ++ tasks.map (fun t => Event.spawned t.name)
          ++ [Event.firstResolved first.name, firstResolvedLog first,
              Event.stopFired]
          ++ (tasks.eraseIdx firstIdx).map (fun t => Event.drained t.name)
          ++ (tasks.filter (fun t => t.hasHook)).map
              (fun t => Event.hookSpawned t.name)
        result := if failure then
            RunResult.failed ("Task " ++ first.name ++ " failed")
          else RunResult.ok }
  else
    { events := initEv ++ errors.map (fun p =>
        Event.logged ("Task " ++ p.1 ++ " can\x27t be initialized: "
          ++ p.2.describe))
      result := RunResult.failed "One or more task weren\x27t able to start" }

/-! ## LocalSet hook phase (node/mod.rs lines 191-197, lib.rs lines 244-260)

After the drain, run spawn_locals every extracted after_node_shutdown hook
on a LocalSet and block_ons join_all over the join handles. The LocalSet is
a single-threaded cooperative context: it polls the spawned hooks in spawn
order, and a hook that suspends yields the thread to the next spawned hook.
A hook future is modelled by the number of polls it needs to complete
(at least 1; more than 1 means the hook suspends). -/

/-- Scheduler state of one spawned hook: name, polls still needed, and
whether its body has started executing. -/
structure HookState where
  name : String
  remaining : Nat
  started : Bool
deriving DecidableEq, Repr

/-- Observable start and finish of hook bodies. -/
inductive HookEvent
  | hookStarted (name : String)
  | hookFinished (name : String)
deriving DecidableEq, Repr

/-- One poll of one spawned hook: the first poll starts the body; the poll
that exhausts the budget finishes it; a completed hook is not polled. -/
def pollOne (h : HookState) : List HookEvent × HookState :=
  match h.remaining with
  | 0 => ([], h)
  | r + 1 =>
    ((if h.started then [] else [HookEvent.hookStarted h.name])
      ++ (if r = 0 then [HookEvent.hookFinished h.name] else []),
     ⟨h.name, r, true⟩)

/-- One cooperative round: the LocalSet polls every pending hook once, in
spawn order. -/
def pollRound : List HookState → List HookEvent × List HookState
  | [] => ([], [])
  | h :: t =>
    let (e1, h1) := pollOne h
    let (e2, t1) := pollRound t
    (e1 ++ e2, h1 :: t1)

/-- Polls still owed across all spawned hooks. -/
def totalRemaining (l : List HookState) : Nat :=
  (l.map (fun h => h.remaining)).sum

/-- Fueled cooperative loop of the LocalSet driving join_all: rounds are
run until every hook completed. -/
def localSetLoop : Nat → List HookState → List HookEvent
  | 0, _ => []
  | fuel + 1, st =>
    if totalRemaining st = 0 then []
    else
      let (evs, st1) := pollRound st
      evs ++ localSetLoop fuel st1

/-- local_set.block_on(join_all(hooks)): spawns each hook (name, polls
needed) in order and drives them to completion cooperatively. -/
def localSetJoinAll (hooks : List (String × Nat)) : List HookEvent :=
  let st := hooks.map (fun p => HookState.mk p.1 p.2 false)
  localSetLoop (totalRemaining st) st

/-- A trace is strictly sequential when it is a concatenation of
started-finished blocks, one hook completing entirely before the next
begins. -/
def isSequentialTrace : List HookEvent → Bool
  | [] => true
  | HookEvent.hookStarted n :: HookEvent.hookFinished m :: rest =>
      n == m && isSequentialTrace rest
  | _ => false

/-! ## Auxiliary observers used only in theorem statements -/

/-- Projects a constructor-invocation event to the task name. -/
def eventCtorName : Event → Option String
  | Event.ctorInvoked n => some n
  | _ => none

/-- Whether sub occurs as a contiguous run inside l. -/
def charListFind : List Char → List Char → Bool
  | sub, [] => sub.isEmpty
  | sub, c :: rest => sub.isPrefixOf (c :: rest) || charListFind sub rest

/-- Whether the string sub occurs inside the string s. -/
def occursIn (s sub : String) : Bool :=
  charListFind sub.toList s.toList

/-! # Theorems -/

/-- C9: converting a LogQuery_1_4_0 into the unified LogQuery and back
yields a value whose every field, including the inner timestamp u32,
equals the original; the same round-trip identity holds for
LogQuery_1_4_1 and for starting from a unified LogQuery through either
versioned type. -/
theorem c9_log_query_roundtrip :
    (∀ q : LogQuery_1_4_0, logQuery_to_1_4_0 (logQuery_of_1_4_0 q) = q)
    ∧ (∀ q : LogQuery_1_4_1, logQuery_to_1_4_1 (logQuery_of_1_4_1 q) = q)
    ∧ (∀ q : LogQuery, logQuery_of_1_4_0 (logQuery_to_1_4_0 q) = q)
    ∧ (∀ q : LogQuery, logQuery_of_1_4_1 (logQuery_to_1_4_1 q) = q) := by
  refine ⟨fun q => ?_, fun q => ?_, fun q => ?_, fun q => ?_⟩ <;> rfl

/-- C8: ZkSyncNode::new invoked from within an already-active executor
context returns the InvalidEnvironment error and constructs nothing, and
invoked outside such a context it succeeds, with empty registries and
both latches unfired. -/
theorem c8_ambient_executor_refusal :
    ZkSyncNode.new true = NewResult.invalidEnvironment
      "Detected a Tokio Runtime. ZkSyncNode manages its own runtime and does not support nested runtimes"
    ∧ ZkSyncNode.new false = NewResult.created ⟨[], [], false, false⟩ :=
  ⟨rfl, rfl⟩

/-- C10 counterexample: at delay_interval = 2 ms and a max_wait whose
truncated millisecond value is 2^64 - 1 (secs = 18446744073709551,
nanos = 615000000), the u64 sum inside poll_iters wraps to zero, so
poll_iters returns 1, while the claimed formula max(1, ceil(w / d))
computed on the truncated millisecond values yields 2^63. -/
theorem c10_counterexample :
    poll_iters (Duration.from_millis 2) ⟨18446744073709551, 615000000⟩ = some 1
    ∧ (⟨18446744073709551, 615000000⟩ : Duration).as_millis % U64MOD = U64MOD - 1
    ∧ Nat.max (((U64MOD - 1) + 2 - 1) / 2) 1 = 9223372036854775808
    ∧ (1 : Nat) ≠ 9223372036854775808 := by
  refine ⟨by decide, by decide, by decide, by decide⟩

/-- C10 (amended): whenever the truncated millisecond value of
delay_interval is at least 1 and the u64 sum does not overflow, poll_iters
returns max(1, ceil division) on the truncated millisecond values; in
particular it returns 1 when max_wait truncates to zero, and the
positivity assertion is unreachable (the result is some). -/
theorem c10_poll_iters_ceil (delay_interval max_wait : Duration)
    (hpos : 1 ≤ delay_interval.as_millis % U64MOD)
    (hov : max_wait.as_millis % U64MOD + delay_interval.as_millis % U64MOD
      ≤ U64MOD) :
    poll_iters delay_interval max_wait =
      some (Nat.max ((max_wait.as_millis % U64MOD
        + delay_interval.as_millis % U64MOD - 1)
        / (delay_interval.as_millis % U64MOD)) 1)
    ∧ (max_wait.as_millis % U64MOD = 0 →
        poll_iters delay_interval max_wait = some 1) := by
  have hMpos : 0 < U64MOD := by decide
  set w := max_wait.as_millis % U64MOD with hw
  set d := delay_interval.as_millis % U64MOD with hd
  have hdne : ¬ d = 0 := by omega
  have hlt : w + d - 1 < U64MOD := by omega
  have hmod : (w + d - 1) % U64MOD = w + d - 1 := Nat.mod_eq_of_lt hlt
  constructor
  · simp only [poll_iters, ← hw, ← hd, hdne, if_false, hmod]
  · intro h0
    rw [h0] at hmod hlt
    simp only [poll_iters, ← hw, ← hd, hdne, if_false, h0, hmod]
    have hdiv : (0 + d - 1) / d = 0 := Nat.div_eq_of_lt (by omega)
    rw [hdiv]
    rfl

/-- C10 witness: the theorem instantiated at delay_interval = 100 ms and
max_wait = 101 ms, matching the repository unit test, gives 2 iterations. -/
theorem c10_poll_iters_ceil_witness :
    poll_iters (Duration.from_millis 100) (Duration.from_millis 101) =
      some (Nat.max (((Duration.from_millis 101).as_millis % U64MOD
        + (Duration.from_millis 100).as_millis % U64MOD - 1)
        / ((Duration.from_millis 100).as_millis % U64MOD)) 1)
    ∧ poll_iters (Duration.from_millis 100) (Duration.from_millis 101) = some 2 :=
  ⟨(c10_poll_iters_ceil (Duration.from_millis 100) (Duration.from_millis 101)
      (by decide) (by decide)).1,
   by decide⟩

/-- C4: the after_node_shutdown phase spawns every hook on one LocalSet
and joins them together, so a hook that suspends yields to the next hook:
with hook A needing two polls and hook B one, B starts and finishes before
A finishes. This contradicts the documented guarantee that the hooks are
invoked sequentially, one completing before the next begins. -/
theorem c4_hook_interleaving :
    localSetJoinAll [("A", 2), ("B", 1)] =
      [HookEvent.hookStarted "A", HookEvent.hookStarted "B",
       HookEvent.hookFinished "B", HookEvent.hookFinished "A"]
    ∧ isSequentialTrace (localSetJoinAll [("A", 2), ("B", 1)]) = false
    ∧ isSequentialTrace (localSetJoinAll [("A", 1), ("B", 1)]) = true := by
  refine ⟨by decide, by decide, by decide⟩

/-- Helper: a downcast that produced a value produced the stored value,
and only when its type tag matches the expected type. -/
theorem downcastClone_found (T name : String) (r v : DynAny)
    (h : downcastClone T name r = GetOutcome.found v) : v.ty = T ∧ v = r := by
  unfold downcastClone at h
  by_cases hty : r.ty = T
  · rw [if_pos hty] at h
    injection h with h
    exact ⟨h ▸ hty, h.symm⟩
  · rw [if_neg hty] at h
    cases h

/-- Helper: looking up a name right after inserting it finds the inserted
value. -/
theorem lookupRes_cons_self (rs : List (String × DynAny)) (name : String)
    (r : DynAny) : lookupRes ((name, r) :: rs) name = some r := by
  simp [lookupRes]

/-- C6 counterexample: with the cache holding resource pool at type Y, a
retrieval of pool at expected type X does not produce a
TaskInitError::ResourceTypeMismatch value for the constructor to return:
it executes panic! (modelled by the typePanic outcome), and the panic
unwinds, so a later retrieval by a later constructor is never evaluated —
the remaining constructors are not invoked. -/
theorem c6_counterexample :
    (get_resource (fun _ => none) "X" "pool"
        ⟨[("pool", DynAny.mk "Y" 0)], []⟩).1
      = GetOutcome.typePanic "pool" "X"
    ∧ (runRequests (fun _ => none) [("X", "pool"), ("T2", "other")]
        ⟨[("pool", DynAny.mk "Y" 0)], []⟩).1
      = [GetOutcome.typePanic "pool" "X"] := by
  refine ⟨by decide, by decide⟩

/-- C6 (amended): a retrieval whose stored or provided value is not of the
expected type T executes a panic naming the resource and the expected
type, which aborts the whole initialization (remaining constructors are
not invoked); the mismatch is never silently coerced — every value
get_resource actually returns carries the expected type tag. -/
theorem c6_type_mismatch_panics (p : String → Option DynAny) (T name : String)
    (st : Registry) (r : DynAny) :
    (lookupRes st.resources name = some r → r.ty ≠ T →
      (get_resource p T name st).1 = GetOutcome.typePanic name T)
    ∧ (lookupRes st.resources name = none → p name = some r → r.ty ≠ T →
      (get_resource p T name st).1 = GetOutcome.typePanic name T)
    ∧ (∀ v, (get_resource p T name st).1 = GetOutcome.found v → v.ty = T) := by
  refine ⟨?_, ?_, ?_⟩
  · intro hl hty
    simp [get_resource, hl, downcastClone, hty]
  · intro hl hp hty
    simp [get_resource, hl, hp, downcastClone, hty]
  · intro v hv
    unfold get_resource at hv
    cases hl : lookupRes st.resources name with
    | some r0 =>
      rw [hl] at hv
      simp only at hv
      exact (downcastClone_found T name r0 v hv).1
    | none =>
      rw [hl] at hv
      simp only at hv
      cases hp : p name with
      | some r1 =>
        rw [hp] at hv
        simp only at hv
        cases hdc : downcastClone T name r1 with
        | found w =>
          rw [hdc] at hv
          simp only at hv
          injection hv with hv
          exact hv ▸ (downcastClone_found T name r1 w hdc).1
        | absent =>
          rw [hdc] at hv
          simp only at hv
          cases hv
        | typePanic n e =>
          rw [hdc] at hv
          simp only at hv
          cases hv
      | none =>
        rw [hp] at hv
        simp only at hv
        cases hv

/-- C6 witness: the amended theorem instantiated at the concrete mismatch
scenario of the spec (resource pool stored at type Y, requested at X). -/
theorem c6_type_mismatch_panics_witness :
    (get_resource (fun _ => none) "X" "pool"
        ⟨[("pool", DynAny.mk "Y" 1)], []⟩).1
      = GetOutcome.typePanic "pool" "X" :=
  (c6_type_mismatch_panics (fun _ => none) "X" "pool"
    ⟨[("pool", DynAny.mk "Y" 1)], []⟩ ⟨"Y", 1⟩).1 (by decide) (by decide)

/-- Helper: inserting a different name leaves a lookup unchanged. -/
theorem lookupRes_cons_ne (rs : List (String × DynAny)) (name n1 : String)
    (r : DynAny) (h : ¬ n1 = name) :
    lookupRes ((n1, r) :: rs) name = lookupRes rs name := by
  have hb : (n1 == name) = false := by simpa using h
  simp [lookupRes, List.find?, hb]

/-- Helper: repeating a get_resource call returns the same outcome. -/
theorem get_resource_idempotent (p : String → Option DynAny) (T name : String)
    (st : Registry) :
    (get_resource p T name (get_resource p T name st).2).1
      = (get_resource p T name st).1 := by
  cases hl : lookupRes st.resources name with
  | some r0 => simp [get_resource, hl]
  | none =>
    cases hp : p name with
    | none => simp [get_resource, hl, hp]
    | some r1 =>
      by_cases hty : r1.ty = T
      · simp [get_resource, hl, hp, downcastClone, hty, lookupRes_cons_self]
      · simp [get_resource, hl, hp, downcastClone, hty]

/-- Helper invariant: when the provider does have the resource under the
given name, any request sequence starting from a state in which the name
was never queried while uncached keeps the provider-call count for that
name at most one; a successful first query caches the value, and a
mismatching first query aborts the process. -/
theorem runRequests_calls_bound (p : String → Option DynAny) (name : String)
    (r : DynAny) (hp : p name = some r) :
    ∀ (reqs : List (String × String)) (st : Registry),
      (lookupRes st.resources name = none → st.providerCalls.count name = 0) →
      st.providerCalls.count name ≤ 1 →
      (runRequests p reqs st).2.providerCalls.count name ≤ 1 := by
  intro reqs
  induction reqs with
  | nil =>
    intro st _ h2
    exact h2
  | cons q rest ih =>
    intro st h1 h2
    obtain ⟨T, n1⟩ := q
    cases hl : lookupRes st.resources n1 with
    | some r0 =>
      by_cases hty : r0.ty = T
      · have hge : get_resource p T n1 st = (GetOutcome.found r0, st) := by
          simp [get_resource, hl, downcastClone, hty]
        rcases hrest : runRequests p rest st with ⟨outs, st2⟩
        simp only [runRequests, hge, hrest]
        have := ih st h1 h2
        rw [hrest] at this
        exact this
      · have hge : get_resource p T n1 st
            = (GetOutcome.typePanic n1 T, st) := by
          simp [get_resource, hl, downcastClone, hty]
        simp only [runRequests, hge]
        exact h2
    | none =>
      cases hpn : p n1 with
      | some r1 =>
        by_cases hty : r1.ty = T
        · have hge : get_resource p T n1 st
              = (GetOutcome.found r1,
                 ⟨(n1, r1) :: st.resources, n1 :: st.providerCalls⟩) := by
            simp [get_resource, hl, hpn, downcastClone, hty]
          have h1' : lookupRes ((n1, r1) :: st.resources) name = none →
              (n1 :: st.providerCalls).count name = 0 := by
            by_cases hn : n1 = name
            · subst hn
              intro hnone
              rw [lookupRes_cons_self] at hnone
              cases hnone
            · intro hnone
              rw [lookupRes_cons_ne _ _ _ _ hn] at hnone
              rw [List.count_cons_of_ne (Ne.symm hn)]
              exact h1 hnone
          have h2' : (n1 :: st.providerCalls).count name ≤ 1 := by
            by_cases hn : n1 = name
            · subst hn
              rw [List.count_cons_self]
              have := h1 hl
              omega
            · rw [List.count_cons_of_ne (Ne.symm hn)]
              exact h2
          rcases hrest : runRequests p rest
              ⟨(n1, r1) :: st.resources, n1 :: st.providerCalls⟩ with ⟨outs, st2⟩
          simp only [runRequests, hge, hrest]
          have := ih ⟨(n1, r1) :: st.resources, n1 :: st.providerCalls⟩ h1' h2'
          rw [hrest] at this
          exact this
        · have hge : get_resource p T n1 st
              = (GetOutcome.typePanic n1 T,
                 ⟨st.resources, n1 :: st.providerCalls⟩) := by
            simp [get_resource, hl, hpn, downcastClone, hty]
          simp only [runRequests, hge]
          by_cases hn : n1 = name
          · subst hn
            rw [List.count_cons_self]
            have := h1 hl
            omega
          · rw [List.count_cons_of_ne (Ne.symm hn)]
            exact h2
      | none =>
        have hn : ¬ n1 = name := by
          intro hn
          rw [hn, hp] at hpn
          cases hpn
        have hge : get_resource p T n1 st
            = (GetOutcome.absent, ⟨st.resources, n1 :: st.providerCalls⟩) := by
          simp [get_resource, hl, hpn]
        have h1' : lookupRes st.resources name = none →
            (n1 :: st.providerCalls).count name = 0 := by
          intro hnone
          rw [List.count_cons_of_ne (Ne.symm hn)]
          exact h1 hnone
        have h2' : (n1 :: st.providerCalls).count name ≤ 1 := by
          rw [List.count_cons_of_ne (Ne.symm hn)]
          exact h2
        rcases hrest : runRequests p rest
            ⟨st.resources, n1 :: st.providerCalls⟩ with ⟨outs, st2⟩
        simp only [runRequests, hge, hrest]
        have := ih ⟨st.resources, n1 :: st.providerCalls⟩ h1' h2'
        rw [hrest] at this
        exact this

/-- C3 counterexample: with a provider that answers absent for every name,
two retrievals of the same (name, type) pair invoke the injected provider
twice — the absent answer is not cached, so the provider is not invoked
at most once per name over the node lifetime. -/
theorem c3_counterexample :
    (runRequests (fun _ => none) [("T", "pool"), ("T", "pool")]
        ⟨[], []⟩).2.providerCalls.count "pool" = 2
    ∧ (runRequests (fun _ => none) [("T", "pool"), ("T", "pool")]
        ⟨[], []⟩).1 = [GetOutcome.absent, GetOutcome.absent] := by
  refine ⟨by decide, by decide⟩

/-- C3 (amended): a second get_resource call with the same (name, T)
returns the same outcome as the first; when the injected provider does
return a value for the name, the provider is invoked at most once for that
name over the whole lifetime, however many constructors retrieve it; but
when the provider answers absent, the answer is not cached and every
further retrieval of that name invokes the provider again. -/
theorem c3_resource_caching (p : String → Option DynAny) (T name : String)
    (st : Registry) (r : DynAny) (reqs : List (String × String)) :
    ((get_resource p T name (get_resource p T name st).2).1
      = (get_resource p T name st).1)
    ∧ (p name = some r →
        (runRequests p reqs ⟨[], []⟩).2.providerCalls.count name ≤ 1)
    ∧ (p name = none → lookupRes st.resources name = none →
        (get_resource p T name st).2.providerCalls.count name
          = st.providerCalls.count name + 1) := by
  refine ⟨get_resource_idempotent p T name st, ?_, ?_⟩
  · intro hp
    exact runRequests_calls_bound p name r hp reqs ⟨[], []⟩
      (fun _ => rfl) (by simp)
  · intro hp hl
    simp [get_resource, hl, hp, List.count_cons_self]

/-- C3 witness: with a provider holding pool, three retrievals of pool
still query the provider at most once, and the concrete repeated call
returns the same clone. -/
theorem c3_resource_caching_witness :
    (runRequests (fun n => if n == "pool" then some (DynAny.mk "T" 7) else none)
        [("T", "pool"), ("T", "pool"), ("T", "pool")]
        ⟨[], []⟩).2.providerCalls.count "pool" ≤ 1 :=
  (c3_resource_caching
    (fun n => if n == "pool" then some (DynAny.mk "T" 7) else none)
    "T" "pool" ⟨[], []⟩ ⟨"T", 7⟩
    [("T", "pool"), ("T", "pool"), ("T", "pool")]).2.1 (by decide)

/-- Helper: every event the constructor loop emits is a constructor
invocation or a stop-subscription creation. -/
theorem mem_initLoop (ts : List TaskSpec) (e : Event) (he : e ∈ initLoop ts) :
    (∃ n, e = Event.ctorInvoked n) ∨ (∃ n, e = Event.subCreated n) := by
  induction ts with
  | nil => simp [initLoop] at he
  | cons t ts ih =>
    simp only [initLoop] at he
    rcases List.mem_append.mp he with h | h
    · cases hi : t.init with
      | some e0 =>
        rw [hi] at h
        simp at h
        exact Or.inl ⟨t.name, h⟩
      | none =>
        rw [hi] at h
        simp at h
        rcases h with h | h
        · exact Or.inl ⟨t.name, h⟩
        · exact Or.inr ⟨t.name, h⟩
    · exact ih h

/-- Helper: normal form of run when some constructor failed. -/
theorem run_init_failed (ts : List TaskSpec) (i : Nat)
    (h : ¬ initErrors ts = []) :
    ZkSyncNode.run ts i =
      { events := initLoop ts ++ (initErrors ts).map (fun pe =>
          Event.logged ("Task " ++ pe.1 ++ " can\x27t be initialized: "
            ++ pe.2.describe))
        result :=
          RunResult.failed "One or more task weren\x27t able to start" } := by
  have he : (initErrors ts).isEmpty = false := by
    rw [List.isEmpty_eq_false]; exact h
  simp [ZkSyncNode.run, he]

/-- Helper: normal form of run when every constructor succeeded but the
tasks vector is empty. -/
theorem run_no_tasks (ts : List TaskSpec) (i : Nat)
    (h1 : initErrors ts = []) (h2 : okTasks ts = []) :
    ZkSyncNode.run ts i =
      { events := initLoop ts
        result := RunResult.failed "No tasks to run" } := by
  simp [ZkSyncNode.run, h1, h2]

/-- Helper: normal form of run in the Running phase. -/
theorem run_running (ts : List TaskSpec) (i : Nat)
    (h1 : initErrors ts = []) (h2 : ¬ okTasks ts = []) :
    ZkSyncNode.run ts i =
      { events := initLoop ts ++ [Event.wiredFired]
          ++ (okTasks ts).map (fun t => Event.spawned t.name)
          ++ [Event.firstResolved ((okTasks ts).getD i dfltTask).name,
              firstResolvedLog ((okTasks ts).getD i dfltTask),
              Event.stopFired]
          ++ ((okTasks ts).eraseIdx i).map (fun t => Event.drained t.name)
          ++ ((okTasks ts).filter (fun t => t.hasHook)).map
              (fun t => Event.hookSpawned t.name)
        result :=
          if ((okTasks ts).getD i dfltTask).result ≠ TaskResult.ok then
            RunResult.failed
              ("Task " ++ ((okTasks ts).getD i dfltTask).name ++ " failed")
          else RunResult.ok } := by
  have ht : (okTasks ts).isEmpty = false := by
    rw [List.isEmpty_eq_false]; exact h2
  simp [ZkSyncNode.run, h1, ht]

/-- C7: run on a node whose registry yields zero tasks (zero constructors,
or all constructors succeeding with zero produced tasks) returns the
NoTasks error without spawning anything and without firing either the
wiring latch or the stop signal. -/
theorem c7_no_tasks_error (ts : List TaskSpec) (i : Nat)
    (h1 : initErrors ts = []) (h2 : okTasks ts = []) :
    (ZkSyncNode.run ts i).result = RunResult.failed "No tasks to run"
    ∧ (∀ n, Event.spawned n ∉ (ZkSyncNode.run ts i).events)
    ∧ Event.wiredFired ∉ (ZkSyncNode.run ts i).events
    ∧ Event.stopFired ∉ (ZkSyncNode.run ts i).events := by
  rw [run_no_tasks ts i h1 h2]
  refine ⟨rfl, ?_, ?_, ?_⟩
  · intro n hn
    rcases mem_initLoop ts _ hn with ⟨m, hm⟩ | ⟨m, hm⟩ <;> cases hm
  · intro hn
    rcases mem_initLoop ts _ hn with ⟨m, hm⟩ | ⟨m, hm⟩ <;> cases hm
  · intro hn
    rcases mem_initLoop ts _ hn with ⟨m, hm⟩ | ⟨m, hm⟩ <;> cases hm

/-- C7 witness: a node with zero registered tasks. -/
theorem c7_no_tasks_error_witness :
    (ZkSyncNode.run ([] : List TaskSpec) 0).result
        = RunResult.failed "No tasks to run"
    ∧ Event.stopFired ∉ (ZkSyncNode.run ([] : List TaskSpec) 0).events :=
  ⟨(c7_no_tasks_error [] 0 rfl rfl).1, (c7_no_tasks_error [] 0 rfl rfl).2.2.2⟩

/-- Helper: the constructor names extracted from the loop events are the
registered names, in order. -/
theorem filterMap_ctorName_initLoop (ts : List TaskSpec) :
    (initLoop ts).filterMap eventCtorName = ts.map (fun t => t.name) := by
  induction ts with
  | nil => rfl
  | cons t ts ih =>
    cases hi : t.init <;> simp [initLoop, hi, eventCtorName, ih]

/-- Helper: mapped event lists that never produce a constructor-invocation
event contribute nothing to the extracted constructor names. -/
theorem filterMap_ctorName_map_none {α : Type} (f : α → Event) (l : List α)
    (hf : ∀ a, eventCtorName (f a) = none) :
    (l.map f).filterMap eventCtorName = [] := by
  induction l with
  | nil => rfl
  | cons a l ih => simp [hf, ih]

/-- Helper: the first-resolved log line is a logged event. -/
theorem firstResolvedLog_is_logged (t : TaskSpec) :
    ∃ m, firstResolvedLog t = Event.logged m := by
  unfold firstResolvedLog
  cases t.result with
  | ok => exact ⟨_, rfl⟩
  | err m => exact ⟨_, rfl⟩
  | panicked => exact ⟨_, rfl⟩

/-- C2 counterexample: one of two constructors fails, under the name zzz.
run does return after attempting both, but the error value it returns is
the fixed message, and the name zzz of the failed constructor does not
occur anywhere in that message — the returned error does not enumerate
the failed names. -/
theorem c2_counterexample :
    (ZkSyncNode.run
        [⟨"zzz", some (TaskInitError.custom "bad"), false, TaskResult.ok⟩,
         ⟨"B", none, false, TaskResult.ok⟩] 0).result
      = RunResult.failed "One or more task weren\x27t able to start"
    ∧ occursIn "One or more task weren\x27t able to start" "zzz" = false
    ∧ initErrors
        [⟨"zzz", some (TaskInitError.custom "bad"), false, TaskResult.ok⟩,
         ⟨"B", none, false, TaskResult.ok⟩]
      = [("zzz", TaskInitError.custom "bad")] := by
  refine ⟨by decide, by decide, by decide⟩

/-- C2 (amended): run invokes all n registered constructors in order and
never stops at the first failure; every failed constructor is enumerated,
with its name, in the error-level log lines; and when at least one
constructor failed, run returns the fixed InitializationFailed error
message, which does not carry the failed names. -/
theorem c2_error_aggregation (ts : List TaskSpec) (i : Nat) :
    ((ZkSyncNode.run ts i).events.filterMap eventCtorName
      = ts.map (fun t => t.name))
    ∧ (∀ pe ∈ initErrors ts,
        Event.logged ("Task " ++ pe.1 ++ " can\x27t be initialized: "
          ++ pe.2.describe) ∈ (ZkSyncNode.run ts i).events)
    ∧ (¬ initErrors ts = [] →
        (ZkSyncNode.run ts i).result
          = RunResult.failed "One or more task weren\x27t able to start") := by
  by_cases he : initErrors ts = []
  · by_cases ht : okTasks ts = []
    · rw [run_no_tasks ts i he ht]
      refine ⟨filterMap_ctorName_initLoop ts, ?_, ?_⟩
      · intro pe hpe
        rw [he] at hpe
        cases hpe
      · intro h
        exact absurd he h
    · rw [run_running ts i he ht]
      refine ⟨?_, ?_, ?_⟩
      · obtain ⟨m, hm⟩ := firstResolvedLog_is_logged ((okTasks ts).getD i dfltTask)
        rw [hm]
        simp only [List.filterMap_append, filterMap_ctorName_initLoop,
          filterMap_ctorName_map_none (fun t => Event.spawned t.name)
            (okTasks ts) (fun a => rfl),
          filterMap_ctorName_map_none (fun t => Event.drained t.name)
            ((okTasks ts).eraseIdx i) (fun a => rfl),
          filterMap_ctorName_map_none (fun t => Event.hookSpawned t.name)
            ((okTasks ts).filter (fun t => t.hasHook)) (fun a => rfl)]
        simp [eventCtorName]
      · intro pe hpe
        rw [he] at hpe
        cases hpe
      · intro h
        exact absurd he h
  · rw [run_init_failed ts i he]
    refine ⟨?_, ?_, fun _ => rfl⟩
    · simp only [List.filterMap_append, filterMap_ctorName_initLoop,
        filterMap_ctorName_map_none
          (fun pe : String × TaskInitError =>
            Event.logged ("Task " ++ pe.1 ++ " can\x27t be initialized: "
              ++ pe.2.describe))
          (initErrors ts) (fun a => rfl)]
      simp
    · intro pe hpe
      exact List.mem_append_right _ (List.mem_map_of_mem _ hpe)

/-- C2 witness: in the two-constructor scenario with a single failure, the
failed name zzz is enumerated in the logged events. -/
theorem c2_error_aggregation_witness :
    Event.logged ("Task zzz can\x27t be initialized: bad")
      ∈ (ZkSyncNode.run
        [⟨"zzz", some (TaskInitError.custom "bad"), false, TaskResult.ok⟩,
         ⟨"B", none, false, TaskResult.ok⟩] 0).events :=
  (c2_error_aggregation
    [⟨"zzz", some (TaskInitError.custom "bad"), false, TaskResult.ok⟩,
     ⟨"B", none, false, TaskResult.ok⟩] 0).2.1
    ("zzz", TaskInitError.custom "bad") (by decide)

/-- Helper: the constructor loop never fires the stop signal. -/
theorem initLoop_count_stop (ts : List TaskSpec) :
    (initLoop ts).count Event.stopFired = 0 := by
  rw [List.count_eq_zero]
  intro h
  rcases mem_initLoop ts _ h with ⟨n, hn⟩ | ⟨n, hn⟩ <;> cases hn

/-- Helper: a mapped event list avoiding stopFired counts no stop event. -/
theorem count_stop_map_none {α : Type} (f : α → Event) (l : List α)
    (hf : ∀ a, ¬ f a = Event.stopFired) :
    (l.map f).count Event.stopFired = 0 := by
  rw [List.count_eq_zero]
  intro h
  rcases List.mem_map.mp h with ⟨a, _, ha⟩
  exact hf a ha

/-- C5: run fires the stop signal exactly once when it reaches the Running
phase and never otherwise, so across the whole lifetime of the node the
stop latch transitions false to true at most once; the firing sits after
the first task resolution and before the drain of the remaining tasks;
and every stop subscription ever handed out (one per constructed task,
when the run future is built) is created strictly before the firing, so
every subscriber observes the transition. -/
theorem c5_stop_signal (ts : List TaskSpec) (i : Nat)
    (h1 : initErrors ts = []) (h2 : ¬ okTasks ts = []) :
    ((ZkSyncNode.run ts i).events.count Event.stopFired = 1)
    ∧ (∃ A B, (ZkSyncNode.run ts i).events = A ++ Event.stopFired :: B
        ∧ (∀ n, Event.subCreated n ∈ (ZkSyncNode.run ts i).events →
            Event.subCreated n ∈ A)
        ∧ Event.firstResolved ((okTasks ts).getD i dfltTask).name ∈ A
        ∧ (∀ n, Event.drained n ∈ (ZkSyncNode.run ts i).events →
            Event.drained n ∈ B))
    ∧ (∀ (ts2 : List TaskSpec) (i2 : Nat),
        (¬ initErrors ts2 = [] ∨ okTasks ts2 = []) →
        (ZkSyncNode.run ts2 i2).events.count Event.stopFired = 0) := by
  obtain ⟨m, hm⟩ := firstResolvedLog_is_logged ((okTasks ts).getD i dfltTask)
  refine ⟨?_, ?_, ?_⟩
  · rw [run_running ts i h1 h2]
    simp only [hm, List.count_append, initLoop_count_stop,
      count_stop_map_none (fun t => Event.spawned t.name) (okTasks ts)
        (fun a ha => by cases ha),
      count_stop_map_none (fun t => Event.drained t.name)
        ((okTasks ts).eraseIdx i) (fun a ha => by cases ha),
      count_stop_map_none (fun t => Event.hookSpawned t.name)
        ((okTasks ts).filter (fun t => t.hasHook)) (fun a ha => by cases ha)]
    rw [List.count_cons_of_ne (by simp), List.count_nil,
      List.count_cons_of_ne (by simp), List.count_cons_of_ne (by simp),
      List.count_cons_self, List.count_nil]
  · have hEv : (ZkSyncNode.run ts i).events
        = (initLoop ts ++ [Event.wiredFired]
            ++ (okTasks ts).map (fun t => Event.spawned t.name)
            ++ [Event.firstResolved ((okTasks ts).getD i dfltTask).name,
                Event.logged m])
          ++ Event.stopFired ::
            (((okTasks ts).eraseIdx i).map (fun t => Event.drained t.name)
              ++ ((okTasks ts).filter (fun t => t.hasHook)).map
                  (fun t => Event.hookSpawned t.name)) := by
      rw [run_running ts i h1 h2]
      simp only [hm]
      simp [List.append_assoc]
    refine ⟨_, _, hEv, ?_, ?_, ?_⟩
    · intro n hn
      rw [hEv] at hn
      rcases List.mem_append.mp hn with h | h
      · exact h
      · exfalso
        rcases List.mem_cons.mp h with h | h
        · cases h
        · rcases List.mem_append.mp h with h | h <;>
            · rcases List.mem_map.mp h with ⟨a, _, ha⟩
              cases ha
    · refine List.mem_append.mpr (Or.inr ?_)
      simp
    · intro n hn
      rw [hEv] at hn
      rcases List.mem_append.mp hn with h | h
      · exfalso
        rcases List.mem_append.mp h with h | h
        · rcases List.mem_append.mp h with h | h
          · rcases List.mem_append.mp h with h | h
            · rcases mem_initLoop ts _ h with ⟨k, hk⟩ | ⟨k, hk⟩ <;> cases hk
            · rcases List.mem_cons.mp h with h | h
              · cases h
              · cases h
          · rcases List.mem_map.mp h with ⟨a, _, ha⟩
            cases ha
        · rcases List.mem_cons.mp h with h | h
          · cases h
          · rcases List.mem_cons.mp h with h | h
            · cases h
            · cases h
      · rcases List.mem_cons.mp h with h | h
        · cases h
        · exact h
  · intro ts2 i2 hcase
    rcases hcase with h | h
    · rw [run_init_failed ts2 i2 h]
      simp only [List.count_append, initLoop_count_stop,
        count_stop_map_none
          (fun pe : String × TaskInitError =>
            Event.logged ("Task " ++ pe.1 ++ " can\x27t be initialized: "
              ++ pe.2.describe))
          (initErrors ts2) (fun a ha => by cases ha)]
    · by_cases h1b : initErrors ts2 = []
      · rw [run_no_tasks ts2 i2 h1b h]
        exact initLoop_count_stop ts2
      · rw [run_init_failed ts2 i2 h1b]
        simp only [List.count_append, initLoop_count_stop,
          count_stop_map_none
            (fun pe : String × TaskInitError =>
              Event.logged ("Task " ++ pe.1 ++ " can\x27t be initialized: "
                ++ pe.2.describe))
            (initErrors ts2) (fun a ha => by cases ha)]

/-- C5 witness: a single-task node reaching the Running phase fires the
stop signal exactly once. -/
theorem c5_stop_signal_witness :
    (ZkSyncNode.run [⟨"A", none, false, TaskResult.ok⟩] 0).events.count
      Event.stopFired = 1 :=
  (c5_stop_signal [⟨"A", none, false, TaskResult.ok⟩] 0
    (by decide) (by decide)).1

/-- Helper: the value run returns in the Running phase. -/
theorem run_result_running (ts : List TaskSpec) (i : Nat)
    (h1 : initErrors ts = []) (h2 : ¬ okTasks ts = []) :
    (ZkSyncNode.run ts i).result =
      if ((okTasks ts).getD i dfltTask).result ≠ TaskResult.ok then
        RunResult.failed
          ("Task " ++ ((okTasks ts).getD i dfltTask).name ++ " failed")
      else RunResult.ok := by
  rw [run_running ts i h1 h2]

/-- C1: for every run reaching the Running phase, run returns the
TaskFailed error naming the first-resolved task exactly when that task
resolved with an error or a panic, and returns Ok otherwise; and the
result depends only on the first-resolved task — two nodes whose
first-resolved task agrees in name and resolution produce the same
result, whatever the drained remaining tasks did. -/
theorem c1_first_resolved_determines_result (ts ts2 : List TaskSpec)
    (i : Nat)
    (h1 : initErrors ts = []) (h2 : ¬ okTasks ts = [])
    (h1b : initErrors ts2 = []) (h2b : ¬ okTasks ts2 = [])
    (hname : ((okTasks ts).getD i dfltTask).name
      = ((okTasks ts2).getD i dfltTask).name)
    (hres : ((okTasks ts).getD i dfltTask).result
      = ((okTasks ts2).getD i dfltTask).result) :
    ((ZkSyncNode.run ts i).result
        = RunResult.failed
            ("Task " ++ ((okTasks ts).getD i dfltTask).name ++ " failed")
      ↔ ¬ ((okTasks ts).getD i dfltTask).result = TaskResult.ok)
    ∧ (((okTasks ts).getD i dfltTask).result = TaskResult.ok →
        (ZkSyncNode.run ts i).result = RunResult.ok)
    ∧ (ZkSyncNode.run ts i).result = (ZkSyncNode.run ts2 i).result := by
  rw [run_result_running ts i h1 h2, run_result_running ts2 i h1b h2b]
  refine ⟨?_, ?_, ?_⟩
  · by_cases hr : ((okTasks ts).getD i dfltTask).result = TaskResult.ok
    · rw [if_neg (not_not_intro hr)]
      exact ⟨(fun h => by cases h), (fun h => absurd hr h)⟩
    · rw [if_pos hr]
      exact ⟨(fun _ => hr), (fun _ => rfl)⟩
  · intro hr
    rw [if_neg (not_not_intro hr)]
  · rw [← hname, ← hres]

/-- C1 witness: with task A resolving first with an error, run fails with
the TaskFailed message naming A, and the result is unchanged when the
drained task B panics instead of succeeding. -/
theorem c1_first_resolved_determines_result_witness :
    (ZkSyncNode.run [⟨"A", none, false, TaskResult.err "boom"⟩,
        ⟨"B", none, true, TaskResult.ok⟩] 0).result
      = (ZkSyncNode.run [⟨"A", none, false, TaskResult.err "boom"⟩,
        ⟨"B", none, true, TaskResult.panicked⟩] 0).result
    ∧ (ZkSyncNode.run [⟨"A", none, false, TaskResult.err "boom"⟩,
        ⟨"B", none, true, TaskResult.ok⟩] 0).result
      = RunResult.failed "Task A failed" :=
  ⟨(c1_first_resolved_determines_result
      [⟨"A", none, false, TaskResult.err "boom"⟩,
       ⟨"B", none, true, TaskResult.ok⟩]
      [⟨"A", none, false, TaskResult.err "boom"⟩,
       ⟨"B", none, true, TaskResult.panicked⟩] 0
      (by decide) (by decide) (by decide) (by decide)
      (by decide) (by decide)).2.2,
   by decide⟩

end ZkSyncEra
